import Mathlib

/-!
Verification of the signald-rs transport core (`src/tokio_socket.rs`).

Shallow embedding of the request/response transport of `signald-rs`:
the shared response registry (`Map`), the writer (`Socket::write`), the
response await entry point (`Socket::get_response`) and the background
dispatch loop (`listen`).

Modelling conventions:
* `serde_json::Value` is the inductive `Json`; `Value::get` and
  `Value::as_str` are `Json.get` / `Json.as_str`.
* `uuid::Uuid` is carried on the wire as its string form; we model the
  token as that string.  `Uuid::parse_str` is external crate code; it is
  modelled as accepting the canonical hyphenated form (`uuidParseStr`).
* A Rust panic reached through `.unwrap()` is made explicit: functions
  that can panic return `Except String α`, where `.error msg` is the
  panic and `.ok` the normal result.
* A tokio `mpsc` channel pair stored in the registry is a `Slot`: the
  list of values already sent into the channel, whether the
  `Option<Receiver>` of the map entry is still `Some`, and whether the
  receiving end has been dropped (so that `Sender::send` would fail).
* `HashMap<Uuid, _>` is an association list `Map` observed only
  through `Map.get?`; `Map.insert` has `HashMap::insert`
  semantics (replace the value when the key is present, never fail).
-/

namespace SignaldRs

/-- `serde_json::Value`: an untyped decoded JSON document. -/
inductive Json : Type where
  | null : Json
  | bool (b : Bool) : Json
  | num (n : Int) : Json
  | str (s : String) : Json
  | arr (elems : List Json) : Json
  | obj (fields : List (String × Json)) : Json

/-- `Value::get(key)` for an object: the value of the first field named
`key`; `none` for a missing field or a non-object. -/
def Json.get : Json → String → Option Json
  | .obj fields, key => lookupField fields key
  | _, _ => none
where
  lookupField : List (String × Json) → String → Option Json
    | [], _ => none
    | (k, v) :: rest, key => if k = key then some v else lookupField rest key

/-- `Value::as_str`: `some s` on a JSON string, `none` otherwise. -/
def Json.as_str : Json → Option String
  | .str s => some s
  | _ => none

/-- The correlation token.  `uuid::Uuid` reaches the wire as its string
form; we identify the token with that string. -/
abbrev Uuid := String

/-- Hex digit check used by the canonical UUID format. -/
def isHexDigit (c : Char) : Bool :=
  (('0' ≤ c) && (c ≤ '9')) || (('a' ≤ c) && (c ≤ 'f')) || (('A' ≤ c) && (c ≤ 'F'))

/-- Character admissible at position `i` of a canonical hyphenated UUID. -/
def uuidCharOk (i : Nat) (c : Char) : Bool :=
  if i = 8 || i = 13 || i = 18 || i = 23 then c = '-' else isHexDigit c

/-- All characters admissible from position `i` on. -/
def uuidOkFrom : Nat → List Char → Bool
  | _, [] => true
  | i, c :: cs => uuidCharOk i c && uuidOkFrom (i + 1) cs

/-- `Uuid::parse_str` (external `uuid` crate): succeeds exactly on the
canonical 8-4-4-4-12 hyphenated hexadecimal form, yielding the token. -/
def uuidParseStr (s : String) : Option Uuid :=
  if s.toList.length = 36 && uuidOkFrom 0 s.toList then some s else none

/-- One registry entry: the `(Sender<Value>, Option<Receiver<Value>>)`
pair stored under an id in the shared map.  `buffered` is the sequence of
values sent into the channel and not yet received, `receiverHeld` is
whether the `Option<Receiver>` is still `Some` (not yet taken by
`get_response`), and `closed` is whether the receiving end has been
dropped so that `Sender::send` returns `Err`. -/
structure Slot : Type where
  buffered : List Json
  receiverHeld : Bool
  closed : Bool

/-- The slot built by `write` (line 58): a fresh `mpsc::channel(1)` pair,
receiver still present, nothing sent. -/
def freshSlot : Slot := { buffered := [], receiverHeld := true, closed := false }

/-- The shared `Map = Arc<Mutex<HashMap<Uuid, (Sender, Option<Receiver>)>>>`,
as an association list observed through `Map.get?`. -/
abbrev Map := List (Uuid × Slot)

/-- `HashMap::get`: the slot stored under `id`, if any. -/
def Map.get? : Map → Uuid → Option Slot
  | [], _ => none
  | (k, v) :: rest, id => if k = id then some v else Map.get? rest id

/-- `HashMap::insert`: replace the value when the key is present,
otherwise add the binding; never fails. -/
def Map.insert : Map → Uuid → Slot → Map
  | [], id, s => [(id, s)]
  | (k, v) :: rest, id, s =>
      if k = id then (id, s) :: rest else (k, v) :: Map.insert rest id s

/-- `SocketError` (lines 21-26), with the payloads reduced to the parts
the transport observes. -/
inductive SocketError : Type where
  | general (msg : String) : SocketError
  | io (msg : String) : SocketError
  | channel (msg : String) : SocketError
  | signald (msg : String) : SocketError
deriving DecidableEq

/-- The two externally visible effects of `write`, in program order:
the insertion of the delivery slot into the shared map (lines 59-62) and
the `write_all` call that puts the request bytes on the outbound stream
(line 64).  No byte can reach the stream before the `sendBytes` event. -/
inductive WireEvent : Type where
  | register (id : Uuid) : WireEvent
  | sendBytes (buf : List Nat) : WireEvent
deriving DecidableEq

/-- Result of one `write` call: the updated shared map, the trace of its
effects in program order, and the returned `Result`. -/
structure WriteResult : Type where
  map : Map
  trace : List WireEvent
  result : Except SocketError Unit

/-- `Socket::write` (lines 57-66): build a fresh `mpsc::channel(1)`,
insert `(sender, Some(receiver))` under `id` into the shared map, then
`write_all(buf)`.  `ioOk` is the outcome of the `write_all` I/O; its
`Err` propagates through `?` as `SocketError::Io` and nothing rolls the
map insertion back. -/
def write (m : Map) (buf : List Nat) (id : Uuid) (ioOk : Bool) : WriteResult :=
  let m' := m.insert id freshSlot
  { map := m'
    trace := [.register id, .sendBytes buf]
    result := if ioOk then .ok () else .error (.io "write_all failed") }

/-- Outcome of `Socket::get_response` (lines 68-80) on the state at the
moment of the call. -/
inductive GetResponseOutcome : Type where
  /-- The receiver was taken and a value was already buffered:
  `recv().await` returns it at once; `m` is the map afterwards. -/
  | value (v : Json) (m : Map) : GetResponseOutcome
  /-- The receiver was taken but nothing is buffered yet: the caller
  suspends in `recv().await`; `m` is the map afterwards. -/
  | awaiting (m : Map) : GetResponseOutcome
  /-- No entry under the id: early return
  `Err(SocketError::General("Error: Incorrect response ID"))` (line 72). -/
  | incorrectId : GetResponseOutcome
  /-- The entry exists but its `Option<Receiver>` is already `None`:
  `channel.1.take().unwrap()` panics (line 70). -/
  | panicked (msg : String) : GetResponseOutcome

/-- `Socket::get_response` (lines 68-80): look the id up in the shared
map; a missing entry returns `Err(General("Error: Incorrect response
ID"))`; otherwise `Option::take` moves the receiver out of the entry
(leaving `None` behind) and `.unwrap()` panics if it was already taken;
finally `recv().await` on the taken receiver.  The channel can never
report closure here because the map keeps the paired sender alive, so
`recv` either pops the first buffered value or suspends. -/
def get_response (m : Map) (id : Uuid) : GetResponseOutcome :=
  match m.get? id with
  | none => .incorrectId
  | some slot =>
      match slot.receiverHeld, slot.buffered with
      | false, _ => .panicked "called Option unwrap on a None value"
      | true, [] => .awaiting (m.insert id { slot with receiverHeld := false })
      | true, v :: rest =>
          .value v (m.insert id { slot with receiverHeld := false, buffered := rest })

/-- The push payload type: `IncomingMessageV1` (src/types.rs lines
696-736).  Every field of the struct is an `Option`, so we model the
decoded record by the JSON object it was decoded from. -/
abbrev IncomingMessageV1 := Json

/-- `serde_json::from_value::<IncomingMessageV1>`: since every field of
`IncomingMessageV1` is optional and serde ignores unknown fields, the
decode succeeds on exactly the JSON objects. -/
def fromValueIncomingMessage : Json → Option IncomingMessageV1
  | .obj fields => some (.obj fields)
  | _ => none

/-- The subscriber channel `mpsc::channel(32)` feeding
`Socket.subscriber`: the events queued so far, and whether the receiving
end has been dropped (in which case `Sender::send` returns `Err`). -/
structure EventQueue : Type where
  items : List IncomingMessageV1
  closed : Bool

/-- Outcome of one `reader.read_line(&mut buf)` call, paired with what
the external `serde_json::from_str` makes of the buffer afterwards:
`ok parsed` is a successful read whose buffer parses to `parsed`
(`none` when the buffer is not valid JSON), `err` a failed read. -/
inductive ReadResult : Type where
  | ok (parsed : Option Json) : ReadResult
  | err (e : String) : ReadResult

/-- At EOF `read_line` returns `Ok(0)` and appends nothing, so the
buffer (cleared at line 140) is empty; `serde_json::from_str("")` fails,
making the parse outcome `none`. -/
def eofRead : ReadResult := ReadResult.ok none

/-- One iteration body of the `listen` loop (lines 116-140), acting on
the shared map and the subscriber queue.  `.error msg` is a panic of the
listener task through one of the `.unwrap()` calls; `.ok` means the body
ran to completion (logging is invisible here) and the loop iterates
again. -/
def listenStep (m : Map) (q : EventQueue) (r : ReadResult) :
    Except String (Map × EventQueue) :=
  match r with
  | .err _ => .ok (m, q)
  | .ok none => .error "from_str unwrap failed: line is not valid JSON"
  | .ok (some response) =>
      match response.get "id" with
      | some idv =>
          match idv.as_str with
          | none => .error "as_str unwrap failed: id field is not a string"
          | some s =>
              match uuidParseStr s with
              | none => .error "Uuid parse_str unwrap failed: malformed uuid"
              | some id =>
                  match m.get? id with
                  | none => .error "map get unwrap failed: unknown correlation id"
                  | some slot =>
                      if slot.closed then
                        .ok (m, q)
                      else
                        .ok (m.insert id { slot with buffered := slot.buffered ++ [response] }, q)
      | none =>
          match response.get "type" with
          | none => .error "get type unwrap failed: frame has no type field"
          | some tv =>
              match tv.as_str with
              | none => .ok (m, q)
              | some t =>
                  if t = "IncomingMessage" then
                    match response.get "data" with
                    | none => .error "get data unwrap failed: frame has no data field"
                    | some d =>
                        match fromValueIncomingMessage d with
                        | none => .error "from_value unwrap failed: payload does not decode"
                        | some msg =>
                            if q.closed then
                              .error "subscriber send unwrap failed: event queue closed"
                            else
                              .ok (m, { q with items := q.items ++ [msg] })
                  else
                    .ok (m, q)

/-- State of the listener after consuming a finite prefix of read
outcomes: the shared map, the subscriber queue, and the panic message if
the task crashed. -/
structure ListenState : Type where
  map : Map
  queue : EventQueue
  crashed : Option String

/-- The `listen` loop (lines 106-142) driven by a finite sequence of
read outcomes.  Nothing in the source ever clears the `listening` flag
set at `connect`, so the loop keeps iterating until the body panics; an
exhausted input sequence leaves the loop blocked in the next
`read_line`. -/
def listen (m : Map) (q : EventQueue) : List ReadResult → ListenState
  | [] => { map := m, queue := q, crashed := none }
  | r :: rest =>
      match listenStep m q r with
      | .ok (m', q') => listen m' q' rest
      | .error msg => { map := m, queue := q, crashed := some msg }

/-! Concrete fixtures used by witnesses and counterexamples. -/

/-- A concrete correlation id, canonical hyphenated form. -/
def ua : Uuid := "00000000-0000-0000-0000-0000000000aa"

/-- A second, distinct concrete correlation id. -/
def ub : Uuid := "00000000-0000-0000-0000-0000000000bb"

/-- A concrete correlation id registered nowhere. -/
def uc : Uuid := "00000000-0000-0000-0000-0000000000cc"

/-- A correlated response frame for `ua`. -/
def frameA : Json := .obj [("id", .str ua)]

/-- A correlated response frame for `ub`. -/
def frameB : Json := .obj [("id", .str ub)]

/-- A correlated response frame naming the unregistered id `uc`. -/
def frameUnknown : Json := .obj [("id", .str uc)]

/-- A decoded frame carrying neither an `id` nor a `type` field. -/
def noRouteFrame : Json := .obj [("foo", .num 1)]

/-- A concrete push-event payload. -/
def eventPayload : Json := .obj [("account", .str "+12025550123")]

/-- A push-event frame: `type` equal to the `IncomingMessage` tag with a
nested `data` payload. -/
def eventFrame : Json := .obj [("type", .str "IncomingMessage"), ("data", eventPayload)]

/-- An open, empty subscriber queue. -/
def q0 : EventQueue := { items := [], closed := false }

/-- A subscriber queue whose receiving end has been dropped. -/
def qClosed : EventQueue := { items := [], closed := true }

/-- A registry with live slots for `ua` and `ub`. -/
def mapAB : Map := [(ua, freshSlot), (ub, freshSlot)]

/-- A slot holding one delivered but not yet received value. -/
def deliveredSlot (v : Json) : Slot := { buffered := [v], receiverHeld := true, closed := false }

/-- Concrete request bytes. -/
def reqBytes : List Nat := [10, 20, 30]

/-! Properties of the registry map. -/

@[simp] theorem Map.get?_insert_self (m : Map) (id : Uuid) (s : Slot) :
    (m.insert id s).get? id = some s := by
  induction m with
  | nil => simp [Map.insert, Map.get?]
  | cons kv rest ih =>
      obtain ⟨k, v⟩ := kv
      by_cases h : k = id <;> simp [Map.insert, Map.get?, h, ih]

theorem Map.get?_insert_ne (m : Map) (id c : Uuid) (s : Slot) (h : c ≠ id) :
    (m.insert id s).get? c = m.get? c := by
  induction m with
  | nil => simp [Map.insert, Map.get?, Ne.symm h]
  | cons kv rest ih =>
      obtain ⟨k, v⟩ := kv
      by_cases hk : k = id
      · subst hk
        have hkc : ¬ k = c := fun hh => h hh.symm
        simp [Map.insert, Map.get?, hkc]
      · simp [Map.insert, Map.get?, hk, ih]

/-- Inserting under a key that is already bound does not change which
keys are bound. -/
theorem Map.get?_insert_existing_isSome (m : Map) (id c : Uuid) (s s' : Slot)
    (hm : m.get? id = some s) :
    ((m.insert id s').get? c).isSome = (m.get? c).isSome := by
  by_cases h : c = id
  · subst h; simp [hm]
  · rw [Map.get?_insert_ne m id c s' h]

/-! Claim theorems. -/

/-- C1: the claim says a response frame naming a CorrelationId with no
live registry entry is a logged no-op — the loop does not crash and the
frame reaches no waiter.  On the code the frame indeed reaches no
waiter, but `map.lock().unwrap().get(&id).unwrap()` (line 122) panics
the listener task on the missing entry: with slots live for `ua` and
`ub`, a frame naming the unregistered `uc` crashes the loop, leaving
every slot untouched. -/
theorem listen_unknown_id_panics :
    listenStep mapAB q0 (.ok (some frameUnknown)) =
      .error "map get unwrap failed: unknown correlation id" ∧
    listen mapAB q0 [.ok (some frameUnknown)] =
      { map := mapAB, queue := q0,
        crashed := some "map get unwrap failed: unknown correlation id" } :=
  ⟨rfl, rfl⟩

/-- C2: the claim says an input line that is not valid JSON, or decodes
to a value with neither an `id` nor a `type` field, is logged and
discarded without crashing the loop or blocking surrounding responses.
On the code `serde_json::from_str(..).unwrap()` (line 118) panics on an
invalid line, `response.get("type").unwrap()` (line 129) panics when
both routing fields are missing, and a malformed line between two
well-formed responses kills the listener, so the later response for
`ub` is never delivered. -/
theorem listen_malformed_line_panics :
    listenStep mapAB q0 (.ok none) =
      .error "from_str unwrap failed: line is not valid JSON" ∧
    listenStep mapAB q0 (.ok (some noRouteFrame)) =
      .error "get type unwrap failed: frame has no type field" ∧
    listen mapAB q0 [.ok (some frameA), .ok none, .ok (some frameB)] =
      { map := [(ua, deliveredSlot frameA), (ub, freshSlot)], queue := q0,
        crashed := some "from_str unwrap failed: line is not valid JSON" } :=
  ⟨rfl, rfl, rfl⟩

/-- C3 counterexample: with a live slot for `ua` still holding an
undelivered response, a second `write` under `ua` returns `Ok` — no
detectable failure — and `HashMap::insert` silently replaces the slot,
dropping the buffered response; this refutes the claim that a second
registration of a live id fails and never silently overwrites. -/
theorem register_duplicate_id_overwrites_cex :
    (write [(ua, deliveredSlot frameA)] reqBytes ua true).result = .ok () ∧
    (write [(ua, deliveredSlot frameA)] reqBytes ua true).map = [(ua, freshSlot)] :=
  ⟨rfl, rfl⟩

/-- C3 amended: registering a CorrelationId that already has a live slot
does not fail: `write` always installs a fresh slot under the id,
silently replacing any existing one, and its result depends only on the
I/O outcome, never on a collision. -/
theorem register_duplicate_id_overwrites (m : Map) (buf : List Nat) (id : Uuid) (ioOk : Bool) :
    (write m buf id ioOk).map.get? id = some freshSlot ∧
    ((write m buf id ioOk).result = .ok () ↔ ioOk = true) := by
  constructor
  · simp [write]
  · cases ioOk <;> simp [write]

/-- C5: the claim says the Listener loop exits without panicking at EOF
or on a read failure, leaving still-registered requests pending.  On the
code EOF makes `read_line` yield `Ok(0)` with an empty buffer, whose
parse `.unwrap()` (line 118) panics the task; and a failed read is only
logged (lines 135-137), after which the body completes normally and the
loop iterates again instead of exiting. -/
theorem listen_eof_panics_and_read_error_loops :
    listen mapAB q0 [eofRead] =
      { map := mapAB, queue := q0,
        crashed := some "from_str unwrap failed: line is not valid JSON" } ∧
    listenStep mapAB q0 (.err "connection reset by peer") = .ok (mapAB, q0) :=
  ⟨rfl, rfl⟩

/-- C7: the claim says a frame tagged `IncomingMessage` has its nested
payload decoded and forwarded to the Event Queue, and that a full or
closed queue only costs that one item without crashing the loop.  The
code does decode and forward (lines 129-132), but on a closed queue
`subscriber_tx.send(msg).await.unwrap()` (line 132) panics and kills
the listener task. -/
theorem listen_closed_event_queue_panics :
    listenStep mapAB q0 (.ok (some eventFrame)) =
      .ok (mapAB, { items := [eventPayload], closed := false }) ∧
    listenStep mapAB qClosed (.ok (some eventFrame)) =
      .error "subscriber send unwrap failed: event queue closed" :=
  ⟨rfl, rfl⟩

/-- C10: if the `write_all` I/O of `write` fails, the error is returned
but the slot inserted beforehand stays registered: the failed operation
does not roll the map back, so the id still maps to a fresh slot and a
subsequent `get_response` finds it (taking the receiver and suspending
on the empty channel) instead of reporting an unknown id. -/
theorem write_failure_leaves_slot_registered (m : Map) (buf : List Nat) (id : Uuid) :
    (write m buf id false).result = .error (.io "write_all failed") ∧
    (write m buf id false).map.get? id = some freshSlot ∧
    get_response (write m buf id false).map id =
      .awaiting ((write m buf id false).map.insert id
        { buffered := [], receiverHeld := false, closed := false }) := by
  refine ⟨rfl, by simp [write], ?_⟩
  simp [write, get_response, freshSlot]

/-- C4: a response frame whose `id` field names the outstanding
CorrelationId `a` is delivered, as the full decoded JSON value, only
into the slot registered for `a`: the listener step buffers the frame in
`a`'s slot and the slot of every other id is left exactly as it was,
independent of the order responses arrive in. -/
theorem response_delivered_only_to_matching_slot
    (m : Map) (q : EventQueue) (frame : Json) (s : String) (a : Uuid) (sa : Slot)
    (hget : frame.get "id" = some (.str s))
    (huuid : uuidParseStr s = some a)
    (hslot : m.get? a = some sa)
    (hopen : sa.closed = false) :
    listenStep m q (.ok (some frame)) =
      .ok (m.insert a { sa with buffered := sa.buffered ++ [frame] }, q) ∧
    ∀ b : Uuid, b ≠ a →
      (m.insert a { sa with buffered := sa.buffered ++ [frame] }).get? b = m.get? b := by
  refine ⟨?_, fun b hb => Map.get?_insert_ne m a b _ hb⟩
  simp [listenStep, hget, Json.as_str, huuid, hslot, hopen]

/-- C4 witness: with `ua` and `ub` both outstanding, the response frame
for `ua` lands in `ua`'s slot and `ub`'s slot is unchanged. -/
theorem response_delivered_only_to_matching_slot_witness :
    listenStep mapAB q0 (.ok (some frameA)) =
      .ok (mapAB.insert ua { freshSlot with buffered := freshSlot.buffered ++ [frameA] }, q0) ∧
    (mapAB.insert ua { freshSlot with buffered := freshSlot.buffered ++ [frameA] }).get? ub =
      mapAB.get? ub :=
  ⟨(response_delivered_only_to_matching_slot mapAB q0 frameA ua ua freshSlot rfl (by decide)
      rfl rfl).1,
   (response_delivered_only_to_matching_slot mapAB q0 frameA ua ua freshSlot rfl (by decide)
      rfl rfl).2 ub (by decide)⟩

/-- C6: in every call to `write`, the delivery slot is inserted into the
shared map strictly before any request byte goes to the stream: the
effect trace of `write` is the registration followed by the byte write,
the map holds the fresh slot under the id, and every byte-write event in
the trace is strictly preceded by a registration event for the id. -/
theorem write_registers_slot_before_bytes (m : Map) (buf : List Nat) (id : Uuid) (ioOk : Bool) :
    (write m buf id ioOk).trace = [.register id, .sendBytes buf] ∧
    (write m buf id ioOk).map.get? id = some freshSlot ∧
    ∀ j : Nat, ((write m buf id ioOk).trace)[j]? = some (.sendBytes buf) →
      ∃ i : Nat, i < j ∧ ((write m buf id ioOk).trace)[i]? = some (.register id) := by
  refine ⟨rfl, by simp [write], ?_⟩
  intro j hj
  match j with
  | 0 => simp [write] at hj
  | 1 => exact ⟨0, Nat.zero_lt_one, rfl⟩
  | n + 2 => simp [write] at hj

/-- C6 witness: for a concrete request, the byte-write event at index 1
is preceded by the registration event at index 0. -/
theorem write_registers_slot_before_bytes_witness :
    (write [] reqBytes ua true).trace = [.register ua, .sendBytes reqBytes] ∧
    ∃ i : Nat, i < 1 ∧ ((write [] reqBytes ua true).trace)[i]? = some (.register ua) :=
  ⟨(write_registers_slot_before_bytes [] reqBytes ua true).1,
   (write_registers_slot_before_bytes [] reqBytes ua true).2.2 1 rfl⟩

/-- Inversion of `get_response` on the `awaiting` outcome. -/
theorem get_response_awaiting_inv (m m' : Map) (id : Uuid)
    (h : get_response m id = .awaiting m') :
    ∃ slot : Slot, m.get? id = some slot ∧ slot.receiverHeld = true ∧ slot.buffered = [] ∧
      m' = m.insert id { slot with receiverHeld := false } := by
  unfold get_response at h
  rcases hm : m.get? id with _ | slot
  · rw [hm] at h; simp at h
  · rw [hm] at h
    obtain ⟨sb, srh, scl⟩ := slot
    cases srh
    · simp at h
    · cases sb with
      | nil =>
          simp at h
          exact ⟨⟨[], true, scl⟩, rfl, rfl, rfl, h.symm⟩
      | cons v rest => simp at h

/-- Inversion of `get_response` on the `value` outcome. -/
theorem get_response_value_inv (m m' : Map) (id : Uuid) (v : Json)
    (h : get_response m id = .value v m') :
    ∃ (slot : Slot) (rest : List Json),
      m.get? id = some slot ∧ slot.receiverHeld = true ∧ slot.buffered = v :: rest ∧
      m' = m.insert id { slot with receiverHeld := false, buffered := rest } := by
  unfold get_response at h
  rcases hm : m.get? id with _ | slot
  · rw [hm] at h; simp at h
  · rw [hm] at h
    obtain ⟨sb, srh, scl⟩ := slot
    cases srh
    · simp at h
    · cases sb with
      | nil => simp at h
      | cons w rest =>
          simp at h
          obtain ⟨hv, hmap⟩ := h
          exact ⟨⟨w :: rest, true, scl⟩, rest, rfl, rfl, by rw [hv], hmap.symm⟩

/-- C8: `get_response` on an id with no registered slot returns the
`Incorrect response ID` error rather than a receiver; and once one call
has taken the receiver out of the slot (whether it found a value at once
or is still awaiting one), a second call on the same id hits
`Option::take` on `None` and its `.unwrap()` fails by panicking instead
of returning a duplicate or empty receiver. -/
theorem get_response_unknown_or_double_take_fails (m m' : Map) (id : Uuid) (v : Json) :
    (m.get? id = none → get_response m id = .incorrectId) ∧
    (get_response m id = .awaiting m' →
      get_response m' id = .panicked "called Option unwrap on a None value") ∧
    (get_response m id = .value v m' →
      get_response m' id = .panicked "called Option unwrap on a None value") := by
  refine ⟨fun h => by simp [get_response, h], fun h => ?_, fun h => ?_⟩
  · obtain ⟨slot, hm, hrh, hb, hm'⟩ := get_response_awaiting_inv m m' id h
    subst hm'
    simp [get_response, Map.get?_insert_self]
  · obtain ⟨slot, rest, hm, hrh, hb, hm'⟩ := get_response_value_inv m m' id v h
    subst hm'
    simp [get_response, Map.get?_insert_self]

/-- C8 witness: on the empty registry the call reports the incorrect-id
error, and a second call after the receiver of `ua` was taken panics. -/
theorem get_response_unknown_or_double_take_fails_witness :
    get_response [] ua = .incorrectId ∧
    get_response [(ua, { buffered := [], receiverHeld := false, closed := false })] ua =
      .panicked "called Option unwrap on a None value" :=
  ⟨(get_response_unknown_or_double_take_fails [] [] ua Json.null).1 rfl,
   (get_response_unknown_or_double_take_fails [(ua, freshSlot)]
      [(ua, { buffered := [], receiverHeld := false, closed := false })] ua Json.null).2.1 rfl⟩

/-- A successful listener step never changes which ids are bound in the
registry: every branch either leaves the map alone or re-inserts under
an id that was already bound. -/
theorem listenStep_preserves_ids (m : Map) (q : EventQueue) (r : ReadResult)
    (m' : Map) (q' : EventQueue) (c : Uuid)
    (h : listenStep m q r = .ok (m', q')) :
    (m'.get? c).isSome = (m.get? c).isSome := by
  rcases r with parsed | e
  · rcases parsed with _ | response
    · simp [listenStep] at h
    · simp only [listenStep] at h
      rcases hid : response.get "id" with _ | idv
      · simp only [hid] at h
        rcases hty : response.get "type" with _ | tv
        · simp [hty] at h
        · simp only [hty] at h
          rcases hts : tv.as_str with _ | t
          · simp [hts] at h
            obtain ⟨h1, h2⟩ := h
            subst h1; rfl
          · simp only [hts] at h
            by_cases htag : t = "IncomingMessage"
            · simp only [htag, if_pos rfl] at h
              rcases hd : response.get "data" with _ | d
              · simp [hd] at h
              · simp only [hd] at h
                rcases hfv : fromValueIncomingMessage d with _ | msg
                · simp [hfv] at h
                · simp only [hfv] at h
                  rcases hqc : q.closed with _ | _
                  · simp [hqc] at h
                    obtain ⟨h1, h2⟩ := h
                    subst h1; rfl
                  · simp [hqc] at h
            · simp [htag] at h
              obtain ⟨h1, h2⟩ := h
              subst h1; rfl
      · simp only [hid] at h
        rcases hstr : idv.as_str with _ | s
        · simp [hstr] at h
        · simp only [hstr] at h
          rcases hu : uuidParseStr s with _ | id2
          · simp [hu] at h
          · simp only [hu] at h
            rcases hm2 : m.get? id2 with _ | slot
            · simp [hm2] at h
            · simp only [hm2] at h
              rcases hcl : slot.closed with _ | _
              · simp [hcl] at h
                obtain ⟨h1, h2⟩ := h
                subst h1
                exact Map.get?_insert_existing_isSome m id2 c slot _ hm2
              · simp [hcl] at h
                obtain ⟨h1, h2⟩ := h
                subst h1; rfl
  · simp [listenStep] at h
    obtain ⟨h1, h2⟩ := h
    subst h1; rfl

/-- C9 counterexample: registry entries are not removed once delivered:
after a request for `ua` is written, its response delivered by the
listener, and the value received through `get_response`, the registry
still holds an entry under `ua`. -/
theorem registry_entry_persists_cex :
    listen (write [] reqBytes ua true).map q0 [.ok (some frameA)] =
      { map := [(ua, deliveredSlot frameA)], queue := q0, crashed := none } ∧
    get_response [(ua, deliveredSlot frameA)] ua =
      .value frameA [(ua, { buffered := [], receiverHeld := false, closed := false })] ∧
    Map.get? [(ua, { buffered := [], receiverHeld := false, closed := false })] ua =
      some { buffered := [], receiverHeld := false, closed := false } :=
  ⟨rfl, rfl, rfl⟩

/-- C9 amended: registry entries are never removed: neither a listener
step nor `get_response` deletes a key — delivery buffers the value
inside the entry and the take clears the receiver in place — so an id
bound in the map stays bound for the life of the connection rather than
being removed once its response is delivered. -/
theorem registry_entries_never_removed (m m' : Map) (q q' : EventQueue)
    (r : ReadResult) (id c : Uuid) (v : Json) :
    (listenStep m q r = .ok (m', q') → (m'.get? c).isSome = (m.get? c).isSome) ∧
    (get_response m id = .awaiting m' → (m'.get? c).isSome = (m.get? c).isSome) ∧
    (get_response m id = .value v m' → (m'.get? c).isSome = (m.get? c).isSome) := by
  refine ⟨fun h => listenStep_preserves_ids m q r m' q' c h, fun h => ?_, fun h => ?_⟩
  · obtain ⟨slot, hm, hrh, hb, hm'⟩ := get_response_awaiting_inv m m' id h
    subst hm'
    exact Map.get?_insert_existing_isSome m id c slot _ hm
  · obtain ⟨slot, rest, hm, hrh, hb, hm'⟩ := get_response_value_inv m m' id v h
    subst hm'
    exact Map.get?_insert_existing_isSome m id c slot _ hm

/-- C9 amended witness: after the response for `ua` is delivered, and
after its receiver is taken, `ua` is still bound. -/
theorem registry_entries_never_removed_witness :
    (Map.get? [(ua, deliveredSlot frameA), (ub, freshSlot)] ua).isSome =
      (Map.get? mapAB ua).isSome ∧
    (Map.get? [(ua, { buffered := [], receiverHeld := false, closed := false })] ua).isSome =
      (Map.get? [(ua, freshSlot)] ua).isSome :=
  ⟨(registry_entries_never_removed mapAB [(ua, deliveredSlot frameA), (ub, freshSlot)] q0 q0
      (.ok (some frameA)) ua ua Json.null).1 rfl,
   (registry_entries_never_removed [(ua, freshSlot)]
      [(ua, { buffered := [], receiverHeld := false, closed := false })] q0 q0
      (.err "e") ua ua Json.null).2.1 rfl⟩

end SignaldRs
